import Mathlib

/-!
Verification of the asynchronous task-orchestration core of the
Deepseek-Thinking-Claude MCP server.

The repository contains two monolithic server implementations
(`src/index.ts` and the raw-protocol variant) plus a refactored modular
version (`ConversationManager`, `TaskManager`, shared `types`).  This file
shallowly embeds the data model and the operations of all of them:

* `ConversationEntry`, `ConversationContext`, `ClaudeMessage`,
  `TaskStatus`, `TaskInfo`  — from `types.ts`;
* the history formatter, in its three copies
  (`IndexServer.formatHistoryForModel`, `ToolServer.formatHistoryForModel`,
  `ConversationManager.formatHistoryForModel`);
* the rolling context buffer (`ConversationManager.addEntry`,
  `DeepseekClaudeServer.addToContext`);
* the task registry (`TaskManager.createTask`, `updateTask`,
  `setTaskStatus`, `waitForTaskUpdate`);
* the orchestrator pipeline (`DeepseekClaudeServer.processTask`,
  `getDeepseekReasoning`, `getFinalResponse`) with the two remote model
  calls and the history source supplied as oracle parameters, and wall
  clock instants (`Date.now()` results) supplied as explicit arguments.

Strings are Lean `String`s, JS numbers used as timestamps/lengths are
`Nat`, JS `Map` is a function `String → Option TaskInfo`, and thrown
exceptions are `Except` errors.  A thrown JS value is modelled as
`Option String`: `some m` for an `Error` whose `.message` is `m`, `none`
for a non-`Error` throw (the orchestrator stores `"Unknown error"` then).
-/

/-- Message role, from `types.ts` (`'user' | 'assistant'`). -/
inductive Role where
  | user
  | assistant
deriving DecidableEq

/-- One typed content fragment of a message (`ClaudeContentPart`). -/
structure ClaudeContentPart where
  type : String
  text : String
deriving DecidableEq

/-- A role-tagged history message (`ClaudeMessage`); `content` is either a
plain string or a list of typed fragments. -/
structure ClaudeMessage where
  role : Role
  content : Sum String (List ClaudeContentPart)
deriving DecidableEq

/-- One completed turn stored in the rolling context (`ConversationEntry`). -/
structure ConversationEntry where
  timestamp : Nat
  prompt : String
  reasoning : String
  response : String
  model : String
deriving DecidableEq

/-- The rolling context buffer (`ConversationContext`). -/
structure ConversationContext where
  entries : List ConversationEntry
  maxEntries : Nat
deriving DecidableEq

/-- Task lifecycle states, from `types.ts` (`TaskStatus`). -/
inductive TaskStatus where
  | pending
  | reasoning
  | responding
  | complete
  | error
deriving DecidableEq

/-- State of one generation job (`TaskInfo` / the monoliths' `TaskStatus`
record).  Optional JS fields are `Option`s. -/
structure TaskInfo where
  status : TaskStatus
  prompt : String
  showReasoning : Option Bool := none
  reasoning : Option String := none
  response : Option String := none
  error : Option String := none
  timestamp : Nat
deriving DecidableEq

/-- The `CLAUDE_MODEL` constant. -/
def CLAUDE_MODEL : String := "anthropic/claude-3.5-sonnet:beta"

namespace ConversationManager

/-- The `ConversationManager.formatMessage`: renders one message as
`"Human: ..."` or `"Assistant: ..."`; array content fragments are joined
with a newline (`.map(c => c.text).join('\n')`). -/
def formatMessage (msg : ClaudeMessage) : String :=
  let content :=
    match msg.content with
    | Sum.inl s => s
    | Sum.inr parts => String.intercalate "\n" (parts.map ClaudeContentPart.text)
  (if msg.role = Role.user then "Human" else "Assistant") ++ ": " ++ content

/-- The loop body of `ConversationManager.formatMessagesWithinLimit`:
walks the (already reversed, i.e. most-recent-first) message list with the
running total, stopping the moment the next formatted message would push
the total past `maxLength`. -/
def collectWithinLimit : List ClaudeMessage → Nat → Nat → List String
  | [], _, _ => []
  | msg :: rest, totalLength, maxLength =>
    let formattedMsg := formatMessage msg
    if totalLength + formattedMsg.length > maxLength then []
    else formattedMsg :: collectWithinLimit rest (totalLength + formattedMsg.length) maxLength

/-- The `ConversationManager.formatMessagesWithinLimit`: iterates from the most
recent message backwards, accumulates within `maxLength`, then reverses the
accepted list back into chronological order. -/
def formatMessagesWithinLimit (history : List ClaudeMessage) (maxLength : Nat) : List String :=
  (collectWithinLimit history.reverse 0 maxLength).reverse

/-- The `ConversationManager.MODEL_LIMITS` and `formatHistoryForModel`.  The
`validateHistory` call only checks type-level well-formedness (array of
role/content records), which every value of `List ClaudeMessage` satisfies,
so it is vacuous in the typed embedding. -/
def formatHistoryForModel (history : List ClaudeMessage) (isDeepSeek : Bool) : String :=
  let maxLength := if isDeepSeek then 50000 else 600000
  String.intercalate "\n\n" (formatMessagesWithinLimit history maxLength)

/-- The `ConversationManager.addEntry` (after the type-level `validateEntry`):
push at the end, then drop the oldest entry if capacity is exceeded. -/
def addEntry (ctx : ConversationContext) (entry : ConversationEntry) : ConversationContext :=
  let entries := ctx.entries ++ [entry]
  if entries.length > ctx.maxEntries then { ctx with entries := entries.tail }
  else { ctx with entries := entries }

/-- The `ConversationManager.clearContext`. -/
def clearContext (ctx : ConversationContext) : ConversationContext :=
  { ctx with entries := [] }

/-- The `ConversationManager` constructor: rejects a non-positive capacity
(`validateMaxEntries`; `Number.isInteger` is type-level for `Nat`). -/
def create (maxEntries : Nat := 10) : Except String ConversationContext :=
  if maxEntries ≤ 0 then Except.error "Max entries must be a positive integer"
  else Except.ok { entries := [], maxEntries := maxEntries }

/-- The `ConversationManager.formatContextForPrompt`. -/
def formatContextForPrompt (ctx : ConversationContext) : String :=
  if ctx.entries.length = 0 then ""
  else
    String.intercalate "\n\n"
      (ctx.entries.map fun entry =>
        "Question: " ++ entry.prompt ++ "\nReasoning: " ++ entry.reasoning ++
          "\nAnswer: " ++ entry.response)

end ConversationManager

namespace IndexServer

/-- The accumulation loop of `formatHistoryForModel` in `src/index.ts`:
formats each message inline and accumulates most-recent-first within the
bound, `break`ing as soon as the next message would exceed it. -/
def collectMessages : List ClaudeMessage → Nat → Nat → List String
  | [], _, _ => []
  | msg :: rest, totalLength, maxLength =>
    let content :=
      match msg.content with
      | Sum.inl s => s
      | Sum.inr parts => String.intercalate "\n" (parts.map ClaudeContentPart.text)
    let formattedMsg := (if msg.role = Role.user then "Human" else "Assistant") ++ ": " ++ content
    if totalLength + formattedMsg.length > maxLength then []
    else formattedMsg :: collectMessages rest (totalLength + formattedMsg.length) maxLength

/-- The `formatHistoryForModel` from `src/index.ts`: 50000-char bound for the
DeepSeek (reasoning) stage, 600000 for the Claude (response) stage; the
accepted messages are reversed back to chronological order and joined with
blank lines. -/
def formatHistoryForModel (history : List ClaudeMessage) (isDeepSeek : Bool) : String :=
  let maxLength := if isDeepSeek then 50000 else 600000
  String.intercalate "\n\n" ((collectMessages history.reverse 0 maxLength).reverse)

end IndexServer

namespace ToolServer

/-- The accumulation loop of `formatHistoryForModel` in the declarative
tool-registration server (a verbatim copy of the raw-protocol server's). -/
def collectMessages : List ClaudeMessage → Nat → Nat → List String
  | [], _, _ => []
  | msg :: rest, totalLength, maxLength =>
    let content :=
      match msg.content with
      | Sum.inl s => s
      | Sum.inr parts => String.intercalate "\n" (parts.map ClaudeContentPart.text)
    let formattedMsg := (if msg.role = Role.user then "Human" else "Assistant") ++ ": " ++ content
    if totalLength + formattedMsg.length > maxLength then []
    else formattedMsg :: collectMessages rest (totalLength + formattedMsg.length) maxLength

/-- The `formatHistoryForModel` from the declarative-tool server. -/
def formatHistoryForModel (history : List ClaudeMessage) (isDeepSeek : Bool) : String :=
  let maxLength := if isDeepSeek then 50000 else 600000
  String.intercalate "\n\n" ((collectMessages history.reverse 0 maxLength).reverse)

end ToolServer

/-- A thrown JS value as seen by a `catch` block: `some m` is an `Error`
with `.message = m`, `none` is a non-`Error` throw. -/
abbrev Thrown := Option String

/-- The `error instanceof Error ? error.message : 'Unknown error'`. -/
def thrownMessage : Thrown → String
  | some m => m
  | none => "Unknown error"

namespace TaskManager

/-- The task registry: the `Map<string, TaskInfo>` as a lookup function. -/
def Registry := String → Option TaskInfo

/-- Store (`Map.set`). -/
def Registry.set (tasks : Registry) (taskId : String) (info : TaskInfo) : Registry :=
  fun k => if k = taskId then some info else tasks k

/-- The `TaskManager.validateTaskId`: rejects the empty string (the only
falsy string); the `typeof` check is type-level. -/
def validateTaskId (taskId : String) : Except String Unit :=
  if taskId = "" then Except.error "Invalid task ID" else Except.ok ()

/-- The `TaskManager.validateTimeout`: rejects a non-positive timeout
(`Number.isFinite` is type-level for `Nat`). -/
def validateTimeout (timeout : Nat) : Except String Unit :=
  if timeout ≤ 0 then Except.error "Timeout must be a positive number" else Except.ok ()

/-- The `TaskManager.isTaskComplete`: terminal-state test. -/
def isTaskComplete (status : TaskStatus) : Bool :=
  status = TaskStatus.complete || status = TaskStatus.error

/-- The blank test `!prompt.trim()`: the trimmed string is empty exactly
when every character of the prompt is whitespace.  (`String.trim` itself
is defined by well-founded byte-position recursion and does not reduce, so
the equivalent all-whitespace characterisation is used.) -/
def isBlank (s : String) : Bool := s.data.all Char.isWhitespace

/-- The `TaskManager.createTask`: rejects a blank or whitespace-only prompt
(`!prompt.trim()`), otherwise registers a fresh `pending` record.  The
generated UUID and `Date.now()` are passed in as `taskId` and `now`. -/
def createTask (tasks : Registry) (taskId : String) (prompt : String)
    (showReasoning : Option Bool) (now : Nat) : Except String (Registry × String) :=
  if isBlank prompt then Except.error "Prompt cannot be empty"
  else
    Except.ok
      (tasks.set taskId
        { status := TaskStatus.pending, prompt := prompt, showReasoning := showReasoning,
          timestamp := now },
        taskId)

/-- The `Partial<TaskInfo>`: each field either absent or supplying a new
value.  (A `timestamp` supplied here is always overridden by the fresh
`Date.now()` in `updateTask`/`setTaskStatus`.) -/
structure TaskUpdate where
  status : Option TaskStatus := none
  prompt : Option String := none
  showReasoning : Option (Option Bool) := none
  reasoning : Option (Option String) := none
  response : Option (Option String) := none
  error : Option (Option String) := none
  timestamp : Option Nat := none
deriving DecidableEq

/-- The spread `{ ...task, ...updates, timestamp: Date.now() }`. -/
def applyUpdate (task : TaskInfo) (updates : TaskUpdate) (now : Nat) : TaskInfo :=
  { status := updates.status.getD task.status
    prompt := updates.prompt.getD task.prompt
    showReasoning := updates.showReasoning.getD task.showReasoning
    reasoning := updates.reasoning.getD task.reasoning
    response := updates.response.getD task.response
    error := updates.error.getD task.error
    timestamp := now }

/-- The `TaskManager.updateTask`: merges the partial update over the stored
record and unconditionally refreshes the timestamp; fails only on an
invalid or unknown id — no check whatsoever on the stored status. -/
def updateTask (tasks : Registry) (taskId : String) (updates : TaskUpdate)
    (now : Nat) : Except String Registry :=
  match validateTaskId taskId with
  | Except.error e => Except.error e
  | Except.ok _ =>
    match tasks taskId with
    | none => Except.error ("Task " ++ taskId ++ " not found")
    | some task => Except.ok (tasks.set taskId (applyUpdate task updates now))

/-- The `TaskManager.setTaskStatus`: like `updateTask` but the explicit
`status` argument wins over anything in `additionalInfo`. -/
def setTaskStatus (tasks : Registry) (taskId : String) (status : TaskStatus)
    (additionalInfo : TaskUpdate) (now : Nat) : Except String Registry :=
  match validateTaskId taskId with
  | Except.error e => Except.error e
  | Except.ok _ =>
    match tasks taskId with
    | none => Except.error ("Task " ++ taskId ++ " not found")
    | some task =>
      Except.ok (tasks.set taskId { applyUpdate task additionalInfo now with status := status })

/-- The `TaskManager.POLL_INTERVAL` (ms). -/
def POLL_INTERVAL : Nat := 100

/-- The `setInterval`/`setTimeout` race inside `waitForTaskUpdate`,
idealised to discrete polling ticks: `states k` is this task's registry
entry at the k-th interval fire, `fuel` is how many interval fires happen
before the timeout fires.  Returns the tick at which the promise resolved
(with an error when the task vanished mid-wait). -/
def pollLoop (states : Nat → Option TaskInfo) (initialStatus : TaskStatus) :
    Nat → Nat → Except String Nat
  | 0, tick => Except.ok tick
  | fuel + 1, tick =>
    match states tick with
    | none => Except.error "Task no longer exists"
    | some currentTask =>
      if currentTask.status ≠ initialStatus || isTaskComplete currentTask.status then
        Except.ok tick
      else pollLoop states initialStatus fuel (tick + 1)

/-- Result of a wait: the snapshot handed back plus the number of polling
ticks that elapsed before it was taken (`0` = returned without ever
entering the polling wait). -/
structure WaitOutcome where
  snapshot : TaskInfo
  polls : Nat
deriving DecidableEq

/-- The `TaskManager.waitForTaskUpdate`: validates id and timeout, returns a
terminal task immediately, otherwise polls every `POLL_INTERVAL` ms until
the status changes, a terminal state is reached, or the timeout elapses,
then returns whatever the registry holds at that instant. -/
def waitForTaskUpdate (states : Nat → Option TaskInfo) (taskId : String)
    (timeout : Nat := 10000) : Except String WaitOutcome :=
  match validateTaskId taskId with
  | Except.error e => Except.error e
  | Except.ok _ =>
    match validateTimeout timeout with
    | Except.error e => Except.error e
    | Except.ok _ =>
      match states 0 with
      | none => Except.error ("Task " ++ taskId ++ " not found")
      | some task =>
        if isTaskComplete task.status then Except.ok ⟨task, 0⟩
        else
          match pollLoop states task.status (timeout / POLL_INTERVAL) 1 with
          | Except.error e => Except.error e
          | Except.ok endTick =>
            match states endTick with
            | none => Except.error ("Task " ++ taskId ++ " no longer exists")
            | some finalTask => Except.ok ⟨finalTask, endTick⟩

end TaskManager

namespace DeepseekClaudeServer

open ConversationManager (formatContextForPrompt)

/-- A chat message sent to the response-stage remote call. -/
structure ChatMessage where
  role : Role
  content : String
deriving DecidableEq

/-- The `addToContext` from both monolithic servers (same body as
`ConversationManager.addEntry`, without the entry validation). -/
def addToContext (ctx : ConversationContext) (entry : ConversationEntry) : ConversationContext :=
  let entries := ctx.entries ++ [entry]
  if entries.length > ctx.maxEntries then { ctx with entries := entries.tail }
  else { ctx with entries := entries }

/-- Outcome of the DeepSeek remote call, as a function of the prompt sent:
a throw, or a completion whose `message.reasoning` field is `none`
(absent) or `some` text. -/
def DeepseekRemote := String → Except Thrown (Option String)

/-- Outcome of the Claude remote call, as a function of the messages sent:
a throw, or a completion whose `message.content` is absent or `some`
text. -/
def ClaudeRemote := List ChatMessage → Except Thrown (Option String)

/-- The `contextPrompt` built inside `getDeepseekReasoning`: the prompt,
wrapped in the rolling-context preamble when the buffer is non-empty. -/
def contextPromptOf (ctx : ConversationContext) (prompt : String) : String :=
  if ctx.entries.length > 0 then
    "Previous conversation:\n" ++ formatContextForPrompt ctx ++ "\n\nNew question: " ++ prompt
  else prompt

/-- The `getDeepseekReasoning`: wraps the prompt in the rolling-context
preamble when the buffer is non-empty, calls the reasoning model, and
treats an absent *or empty* `reasoning` field (both falsy in
`!responseData.choices?.[0]?.message?.reasoning`) as a thrown
`'No reasoning received from DeepSeek'`. -/
def getDeepseekReasoning (ctx : ConversationContext) (remote : DeepseekRemote)
    (prompt : String) : Except Thrown String :=
  match remote (contextPromptOf ctx prompt) with
  | Except.error e => Except.error e
  | Except.ok none => Except.error (some "No reasoning received from DeepSeek")
  | Except.ok (some r) =>
    if r = "" then Except.error (some "No reasoning received from DeepSeek")
    else Except.ok r

/-- The `messages` array built inside `getFinalResponse`: prior buffered
turns as alternating user/assistant pairs (when the buffer is non-empty),
then the prompt as a user message, then the reasoning in a `<thinking>`
marker as an assistant message. -/
def responseMessagesOf (ctx : ConversationContext) (prompt reasoning : String) :
    List ChatMessage :=
  let base : List ChatMessage :=
    [⟨Role.user, prompt⟩, ⟨Role.assistant, "<thinking>" ++ reasoning ++ "</thinking>"⟩]
  if ctx.entries.length > 0 then
    (ctx.entries.flatMap fun entry =>
      [ChatMessage.mk Role.user entry.prompt, ChatMessage.mk Role.assistant entry.response])
      ++ base
  else base

/-- The `getFinalResponse`: sends `responseMessagesOf` to the response model;
an absent or empty `content` (falsy in
`content || "Error: No response content"`) is replaced by the placeholder
instead of failing. -/
def getFinalResponse (ctx : ConversationContext) (remote : ClaudeRemote)
    (prompt : String) (reasoning : String) : Except Thrown String :=
  match remote (responseMessagesOf ctx prompt reasoning) with
  | Except.error e => Except.error e
  | Except.ok none => Except.ok "Error: No response content"
  | Except.ok (some s) => if s = "" then Except.ok "Error: No response content" else Except.ok s

/-- One write of this task's registry entry, paired with the wall-clock
instant at which the orchestrator performed it. -/
structure TaskWrite where
  time : Nat
  info : TaskInfo
deriving DecidableEq

/-- The `if (clearContext) this.context.entries = []` step at the head of
`processTask`. -/
def ctxAfterClear (clearContext : Bool) (ctx : ConversationContext) : ConversationContext :=
  if clearContext then { ctx with entries := [] } else ctx

/-- The `includeHistory !== false` guard around `findActiveConversation`:
the fetched history is used unless the flag is explicitly `false`. -/
def historyIfRequested (includeHistory : Option Bool)
    (history : Option (List ClaudeMessage)) : Option (List ClaudeMessage) :=
  if includeHistory = some false then none else history

/-- The history text used for the reasoning stage and the prompt built
from it (`reasoningHistory ? ... : task.prompt`; an empty string is
falsy). -/
def reasoningPromptOf (task : TaskInfo) (history : Option (List ClaudeMessage)) : String :=
  let reasoningHistory :=
    match history with
    | some h => IndexServer.formatHistoryForModel h true
    | none => ""
  if reasoningHistory = "" then task.prompt
  else reasoningHistory ++ "\n\nNew question: " ++ task.prompt

/-- The history text used for the response stage and the prompt built
from it. -/
def fullPromptOf (task : TaskInfo) (history : Option (List ClaudeMessage)) : String :=
  let responseHistory :=
    match history with
    | some h => IndexServer.formatHistoryForModel h false
    | none => ""
  if responseHistory = "" then task.prompt
  else responseHistory ++ "\n\nCurrent task: " ++ task.prompt

/-- The `processTask` from both monolithic servers, with its effects made
explicit.  Inputs: the record fetched at entry (`task` — every later
write spreads this *original* record), the `clearContext` /
`includeHistory` flags, the `findActiveConversation` result (`history`),
the two remote calls as oracles, the context buffer, and the `Date.now()`
instants `t1`/`t2`/`t3` at which the reasoning-transition write, the
responding-transition write, and the terminal write happen.  Output: the
ordered list of registry writes it performs for this task, and the final
context buffer.  (The monoliths' outer `.catch` then re-writes an
identical `error` record; it adds no status change and no buffer
mutation.) -/
def processTask (task : TaskInfo) (clearContext : Bool) (includeHistory : Option Bool)
    (history : Option (List ClaudeMessage))
    (deepseekRemote : DeepseekRemote) (claudeRemote : ClaudeRemote)
    (ctx : ConversationContext) (t1 t2 t3 : Nat) :
    List TaskWrite × ConversationContext :=
  let ctx0 := ctxAfterClear clearContext ctx
  let w1 : TaskWrite := ⟨t1, { task with status := TaskStatus.reasoning }⟩
  let hist := historyIfRequested includeHistory history
  match getDeepseekReasoning ctx0 deepseekRemote (reasoningPromptOf task hist) with
  | Except.error e =>
    ([w1, ⟨t3, { task with
                  status := TaskStatus.error
                  error := some (thrownMessage e)
                  timestamp := t3 }⟩], ctx0)
  | Except.ok reasoning =>
    let w2 : TaskWrite :=
      ⟨t2, { task with status := TaskStatus.responding, reasoning := some reasoning }⟩
    match getFinalResponse ctx0 claudeRemote (fullPromptOf task hist) reasoning with
    | Except.error e =>
      ([w1, w2, ⟨t3, { task with
                        status := TaskStatus.error
                        error := some (thrownMessage e)
                        timestamp := t3 }⟩], ctx0)
    | Except.ok response =>
      let ctx1 := addToContext ctx0
        ⟨t3, task.prompt, reasoning, response, CLAUDE_MODEL⟩
      ([w1, w2, ⟨t3, { task with
                        status := TaskStatus.complete
                        reasoning := some reasoning
                        response := some response
                        timestamp := t3 }⟩], ctx1)

/-- The JSON body returned by `check_response_status`; `none` models an
absent (`undefined`) field. -/
structure StatusResult where
  status : TaskStatus
  reasoning : Option String
  response : Option String
  error : Option String
deriving DecidableEq

/-- The projection both servers apply to a task record when answering
`check_response_status`: `reasoning` only when the task was created with a
truthy `showReasoning`, `response` only when the status is `complete`. -/
def checkStatusProjection (task : TaskInfo) : StatusResult :=
  { status := task.status
    reasoning := if task.showReasoning = some true then task.reasoning else none
    response := if task.status = TaskStatus.complete then task.response else none
    error := task.error }

/-- The `handleCheckResponseStatus` from the declarative-tool server: terminal
tasks are answered immediately; otherwise it polls every 100 ms for up to
`POLL_DELAY_MS = 10000` ms and answers with the record found afterwards.
Modelled over the same tick-indexed registry view as
`TaskManager.waitForTaskUpdate`, returning the projected body and the
number of polling ticks that elapsed. -/
def handleCheckResponseStatus (states : Nat → Option TaskInfo) (taskId : String) :
    Except String (StatusResult × Nat) :=
  match states 0 with
  | none => Except.error ("No task found with ID: " ++ taskId)
  | some task =>
    if TaskManager.isTaskComplete task.status then Except.ok (checkStatusProjection task, 0)
    else
      match TaskManager.pollLoop states task.status (10000 / 100) 1 with
      | Except.error _ => Except.error ("Task " ++ taskId ++ " no longer exists")
      | Except.ok endTick =>
        match states endTick with
        | none => Except.error ("Task " ++ taskId ++ " no longer exists")
        | some finalTask => Except.ok (checkStatusProjection finalTask, endTick)

/-- The arguments of the `generate_response` tool after the type-level
`isValidGenerateResponseArgs` / zod check. -/
structure GenerateResponseArgs where
  prompt : String
  showReasoning : Option Bool := none
  clearContext : Option Bool := none
  includeHistory : Option Bool := none
deriving DecidableEq

/-- The task-registration step of the monoliths' `generate_response`
handler: after the *shape-only* argument check, a fresh `pending` record
is stored unconditionally — there is no blank-prompt validation on this
path. -/
def handleGenerateResponseInit (tasks : TaskManager.Registry) (taskId : String)
    (args : GenerateResponseArgs) (now : Nat) : TaskManager.Registry × String :=
  (tasks.set taskId
    { status := TaskStatus.pending, prompt := args.prompt,
      showReasoning := args.showReasoning, timestamp := now },
    taskId)

end DeepseekClaudeServer


/-! ## Helper lemmas about the history formatter -/

/-- The inline formatting in the raw-protocol server's loop computes
exactly `ConversationManager.formatMessage`, so the two collectors agree. -/
theorem collectMessages_eq_collectWithinLimit :
    ∀ (l : List ClaudeMessage) (total maxL : Nat),
      IndexServer.collectMessages l total maxL
        = ConversationManager.collectWithinLimit l total maxL := by
  intro l
  induction l with
  | nil => intro total maxL; rfl
  | cons msg rest ih =>
    intro total maxL
    simp only [IndexServer.collectMessages, ConversationManager.collectWithinLimit,
      ConversationManager.formatMessage]
    rw [ih]

/-- The declarative-tool server's collector is a verbatim copy of the
raw-protocol server's. -/
theorem toolCollect_eq_indexCollect :
    ∀ (l : List ClaudeMessage) (total maxL : Nat),
      ToolServer.collectMessages l total maxL = IndexServer.collectMessages l total maxL := by
  intro l
  induction l with
  | nil => intro total maxL; rfl
  | cons msg rest ih =>
    intro total maxL
    simp only [IndexServer.collectMessages, ToolServer.collectMessages]
    rw [ih]

/-- The running total really bounds the collected lengths: starting from
`total ≤ maxL`, the collected messages' lengths sum to at most the
remaining budget. -/
theorem collectWithinLimit_sum_le :
    ∀ (l : List ClaudeMessage) (total maxL : Nat), total ≤ maxL →
      total + ((ConversationManager.collectWithinLimit l total maxL).map String.length).sum
        ≤ maxL := by
  intro l
  induction l with
  | nil =>
    intro total maxL h
    simpa [ConversationManager.collectWithinLimit] using h
  | cons msg rest ih =>
    intro total maxL h
    by_cases hgt : total + (ConversationManager.formatMessage msg).length > maxL
    · simpa [ConversationManager.collectWithinLimit, hgt] using h
    · have hle : total + (ConversationManager.formatMessage msg).length ≤ maxL := by omega
      have := ih (total + (ConversationManager.formatMessage msg).length) maxL hle
      simp only [ConversationManager.collectWithinLimit, if_neg hgt, List.map_cons,
        List.sum_cons]
      omega

/-- The collector keeps a *prefix* of the most-recent-first list, formatted
by `formatMessage`. -/
theorem collectWithinLimit_take :
    ∀ (l : List ClaudeMessage) (total maxL : Nat),
      ∃ k, k ≤ l.length ∧
        ConversationManager.collectWithinLimit l total maxL
          = (l.take k).map ConversationManager.formatMessage := by
  intro l
  induction l with
  | nil => intro total maxL; exact ⟨0, Nat.le_refl 0, rfl⟩
  | cons msg rest ih =>
    intro total maxL
    by_cases hgt : total + (ConversationManager.formatMessage msg).length > maxL
    · exact ⟨0, Nat.zero_le _, by simp [ConversationManager.collectWithinLimit, hgt]⟩
    · obtain ⟨k, hk, he⟩ := ih (total + (ConversationManager.formatMessage msg).length) maxL
      exact ⟨k + 1, Nat.succ_le_succ hk,
        by simp [ConversationManager.collectWithinLimit, hgt, he]⟩

/-- On a list of `n` copies of one message whose total formatted length
fits the budget, the collector keeps everything. -/
theorem collectWithinLimit_replicate (msg : ClaudeMessage) :
    ∀ (n total maxL : Nat),
      total + n * (ConversationManager.formatMessage msg).length ≤ maxL →
      ConversationManager.collectWithinLimit (List.replicate n msg) total maxL
        = List.replicate n (ConversationManager.formatMessage msg) := by
  intro n
  induction n with
  | zero => intro total maxL _; rfl
  | succ n ih =>
    intro total maxL h
    have hfit : ¬ total + (ConversationManager.formatMessage msg).length > maxL := by
      have : (ConversationManager.formatMessage msg).length
          ≤ (n + 1) * (ConversationManager.formatMessage msg).length := by
        calc (ConversationManager.formatMessage msg).length
            = 1 * (ConversationManager.formatMessage msg).length := by ring
          _ ≤ (n + 1) * (ConversationManager.formatMessage msg).length :=
              Nat.mul_le_mul_right _ (by omega)
      omega
    have hrest : (total + (ConversationManager.formatMessage msg).length)
        + n * (ConversationManager.formatMessage msg).length ≤ maxL := by
      have : total + (n + 1) * (ConversationManager.formatMessage msg).length
          = (total + (ConversationManager.formatMessage msg).length)
            + n * (ConversationManager.formatMessage msg).length := by ring
      omega
    simp [List.replicate_succ, ConversationManager.collectWithinLimit, hfit, ih _ _ hrest]

/-- Length of `String.intercalate.go` in terms of its pieces. -/
theorem intercalate_go_length (s : String) :
    ∀ (l : List String) (acc : String),
      (String.intercalate.go acc s l).length
        = acc.length + (l.map fun a => s.length + a.length).sum := by
  intro l
  induction l with
  | nil => intro acc; simp [String.intercalate.go]
  | cons a as ih =>
    intro acc
    simp [String.intercalate.go, ih]
    omega

/-- Summing a constant plus each length distributes. -/
theorem sum_map_const_add_length (c : Nat) :
    ∀ (l : List String),
      (l.map fun x => c + x.length).sum = c * l.length + (l.map String.length).sum := by
  intro l
  induction l with
  | nil => simp
  | cons a as ih =>
    simp [ih]
    ring

/-- Joining with a blank line costs exactly two characters per separator. -/
theorem intercalate_blankline_length (l : List String) :
    (String.intercalate "\n\n" l).length
      = (l.map String.length).sum + 2 * (l.length - 1) := by
  cases l with
  | nil => simp [String.intercalate]
  | cons a as =>
    have h2 : ("\n\n" : String).length = 2 := by decide
    rw [show String.intercalate "\n\n" (a :: as) = String.intercalate.go a "\n\n" as from rfl,
      intercalate_go_length]
    simp [h2, sum_map_const_add_length]
    omega

/-- The reversal of a take of the reversal is a drop from the front. -/
theorem reverse_take_reverse_eq_drop (l : List ClaudeMessage) (k : Nat) :
    (l.reverse.take k).reverse = l.drop (l.length - k) := by
  have h := List.rtake_eq_reverse_take_reverse (l := l) (n := k)
  simpa [List.rtake] using h.symm

/-! ## Helper lemmas about the rolling context buffer -/

/-- Lemma: `addEntry` written as a plain conditional (definitional unfolding). -/
theorem addEntry_eq (ctx : ConversationContext) (e : ConversationEntry) :
    ConversationManager.addEntry ctx e
      = if (ctx.entries ++ [e]).length > ctx.maxEntries
        then { ctx with entries := (ctx.entries ++ [e]).tail }
        else { ctx with entries := ctx.entries ++ [e] } := rfl

/-- Folding `addEntry` from any in-capacity state keeps exactly the most
recent `maxEntries` entries (as a drop from the front of all entries ever
seen). -/
theorem foldl_addEntry_entries (K : Nat) (hK : 0 < K) :
    ∀ (es l : List ConversationEntry), l.length ≤ K →
      (es.foldl ConversationManager.addEntry ⟨l, K⟩).entries
        = (l ++ es).drop ((l ++ es).length - K) := by
  intro es
  induction es with
  | nil =>
    intro l hl
    have h0 : l.length - K = 0 := by omega
    simp [h0]
  | cons e es ih =>
    intro l hl
    have hstep : List.foldl ConversationManager.addEntry ⟨l, K⟩ (e :: es)
        = List.foldl ConversationManager.addEntry (ConversationManager.addEntry ⟨l, K⟩ e) es :=
      rfl
    by_cases hfull : l.length + 1 > K
    · have hlen : l.length = K := by omega
      cases l with
      | nil =>
        exfalso
        simp at hfull
        omega
      | cons a l0 =>
        have hl0K : l0.length + 1 = K := by simpa using hlen
        have hcond : (((⟨a :: l0, K⟩ : ConversationContext).entries ++ [e]).length > K) := by
          simp
          omega
        have haddE : ConversationManager.addEntry ⟨a :: l0, K⟩ e = ⟨l0 ++ [e], K⟩ := by
          rw [addEntry_eq, if_pos hcond]
          simp
        have hl0 : (l0 ++ [e]).length ≤ K := by
          simp
          omega
        rw [hstep, haddE, ih _ hl0]
        have hidx1 : ((l0 ++ [e]) ++ es).length - K = es.length := by
          simp
          omega
        have hidx2 : ((a :: l0) ++ e :: es).length - K = es.length + 1 := by
          simp
          omega
        rw [hidx1, hidx2]
        have hsplit : (a :: l0) ++ e :: es = a :: ((l0 ++ [e]) ++ es) := by simp
        rw [hsplit, List.drop_succ_cons]
    · have hcond : ¬ (((⟨l, K⟩ : ConversationContext).entries ++ [e]).length > K) := by
        simp
        omega
      have haddE : ConversationManager.addEntry ⟨l, K⟩ e = ⟨l ++ [e], K⟩ := by
        rw [addEntry_eq, if_neg hcond]
      have hlen : (l ++ [e]).length ≤ K := by
        simp
        omega
      rw [hstep, haddE, ih _ hlen]
      simp

/-! ## C1, C2, C9 -/

/-- Claim C1 (amended).  For every message sequence and stage flag, with
`L` the stage bound (50000 for reasoning, 600000 for response): the sum of
the lengths of the rendered messages never exceeds `L` — hence the full
output exceeds `L` by at most the two-character blank-line separators,
`2·(k−1)` for `k` rendered messages — and the rendered subset, in
chronological order, is a suffix of the input sequence (the most recent
messages are kept). -/
theorem c1_formatter_bound_amended (history : List ClaudeMessage) (isDeepSeek : Bool) :
    ((ConversationManager.formatMessagesWithinLimit history
          (if isDeepSeek then 50000 else 600000)).map String.length).sum
        ≤ (if isDeepSeek then 50000 else 600000)
    ∧ (IndexServer.formatHistoryForModel history isDeepSeek).length
        ≤ (if isDeepSeek then 50000 else 600000)
          + 2 * ((ConversationManager.formatMessagesWithinLimit history
              (if isDeepSeek then 50000 else 600000)).length - 1)
    ∧ ∃ j, ConversationManager.formatMessagesWithinLimit history
          (if isDeepSeek then 50000 else 600000)
        = (history.drop j).map ConversationManager.formatMessage := by
  set L := if isDeepSeek then 50000 else 600000 with hL
  have hsum : ((ConversationManager.formatMessagesWithinLimit history L).map
      String.length).sum ≤ L := by
    have h0 := collectWithinLimit_sum_le history.reverse 0 L (Nat.zero_le L)
    simpa [ConversationManager.formatMessagesWithinLimit, List.map_reverse,
      List.sum_reverse] using h0
  refine ⟨hsum, ?_, ?_⟩
  · have heq : IndexServer.formatHistoryForModel history isDeepSeek
        = String.intercalate "\n\n"
            (ConversationManager.formatMessagesWithinLimit history L) := by
      simp [IndexServer.formatHistoryForModel,
        ConversationManager.formatMessagesWithinLimit,
        collectMessages_eq_collectWithinLimit, hL]
    rw [heq, intercalate_blankline_length]
    omega
  · obtain ⟨k, hk, he⟩ := collectWithinLimit_take history.reverse 0 L
    refine ⟨history.length - k, ?_⟩
    have : ConversationManager.formatMessagesWithinLimit history L
        = ((history.reverse.take k).map ConversationManager.formatMessage).reverse := by
      simp [ConversationManager.formatMessagesWithinLimit, he]
    rw [this, ← List.map_reverse, reverse_take_reverse_eq_drop, List.map_drop]

/-- Claim C1 counterexample to the claim as stated: 5556 empty user
messages each render as the 7-character `"Human: "`; all fit the 50000
budget (sum 38892), but the blank-line separators push the actual output
to 50002 characters, exceeding the reasoning-stage bound. -/
theorem c1_formatter_bound_counterexample :
    50000 < (IndexServer.formatHistoryForModel
        (List.replicate 5556 ⟨Role.user, Sum.inl ""⟩) true).length := by
  have hmsg : ConversationManager.formatMessage ⟨Role.user, Sum.inl ""⟩ = "Human: " := by
    decide
  have hlen : ("Human: " : String).length = 7 := by decide
  have hcoll : ConversationManager.collectWithinLimit
      (List.replicate 5556 (⟨Role.user, Sum.inl ""⟩ : ClaudeMessage)) 0 50000
      = List.replicate 5556 "Human: " := by
    rw [collectWithinLimit_replicate ⟨Role.user, Sum.inl ""⟩ 5556 0 50000
      (by rw [hmsg, hlen]; norm_num), hmsg]
  have hunfold : IndexServer.formatHistoryForModel
      (List.replicate 5556 ⟨Role.user, Sum.inl ""⟩) true
      = String.intercalate "\n\n"
          ((IndexServer.collectMessages
            (List.replicate 5556 ⟨Role.user, Sum.inl ""⟩).reverse 0 50000).reverse) := rfl
  have heq : IndexServer.formatHistoryForModel
      (List.replicate 5556 ⟨Role.user, Sum.inl ""⟩) true
      = String.intercalate "\n\n" (List.replicate 5556 "Human: ") := by
    rw [hunfold, List.reverse_replicate, collectMessages_eq_collectWithinLimit, hcoll,
      List.reverse_replicate]
  rw [heq, intercalate_blankline_length, List.map_replicate, hlen, List.sum_replicate,
    smul_eq_mul, List.length_replicate]
  norm_num

/-- Claim C2.  Starting from an empty buffer of positive capacity `K`,
after appending the entries `es` in order the buffer holds exactly the
last `min (es.length) K` of them, in insertion order, and after every
prefix of the operations the length is at most `K`. -/
theorem c2_capacity_invariant (K : Nat) (hK : 0 < K) (es : List ConversationEntry) :
    (es.foldl ConversationManager.addEntry ⟨[], K⟩).entries
        = es.drop (es.length - K)
    ∧ (es.foldl ConversationManager.addEntry ⟨[], K⟩).entries.length
        = min es.length K
    ∧ ∀ n, ((es.take n).foldl ConversationManager.addEntry ⟨[], K⟩).entries.length ≤ K := by
  have hmain : ∀ (l : List ConversationEntry),
      (l.foldl ConversationManager.addEntry ⟨[], K⟩).entries
        = l.drop (l.length - K) := by
    intro l
    simpa using foldl_addEntry_entries K hK l [] (by simp)
  have hlen : ∀ (l : List ConversationEntry),
      (l.foldl ConversationManager.addEntry ⟨[], K⟩).entries.length = min l.length K := by
    intro l
    rw [hmain l, List.length_drop]
    omega
  refine ⟨hmain es, hlen es, fun n => ?_⟩
  rw [hlen (es.take n)]
  omega

/-- Claim C2 witness (concrete scenario A): capacity 2, three appends keep
exactly the last two entries in order. -/
theorem c2_capacity_invariant_witness :
    (([⟨1, "p1", "r1", "a1", "m"⟩, ⟨2, "p2", "r2", "a2", "m"⟩,
        ⟨3, "p3", "r3", "a3", "m"⟩] : List ConversationEntry).foldl
          ConversationManager.addEntry ⟨[], 2⟩).entries
      = [⟨2, "p2", "r2", "a2", "m"⟩, ⟨3, "p3", "r3", "a3", "m"⟩] := by
  have h := c2_capacity_invariant 2 (by decide)
    [⟨1, "p1", "r1", "a1", "m"⟩, ⟨2, "p2", "r2", "a2", "m"⟩, ⟨3, "p3", "r3", "a3", "m"⟩]
  simpa using h.1

/-- Claim C9.  The history formatter of the raw-protocol server, the one of
the declarative-tool server, and `ConversationManager.formatHistoryForModel`
return identical output on every well-formed history and stage flag. -/
theorem c9_formatter_equivalence (history : List ClaudeMessage) (isDeepSeek : Bool) :
    IndexServer.formatHistoryForModel history isDeepSeek
        = ToolServer.formatHistoryForModel history isDeepSeek
    ∧ ToolServer.formatHistoryForModel history isDeepSeek
        = ConversationManager.formatHistoryForModel history isDeepSeek := by
  constructor
  · simp [IndexServer.formatHistoryForModel, ToolServer.formatHistoryForModel,
      toolCollect_eq_indexCollect]
  · simp [ToolServer.formatHistoryForModel, ConversationManager.formatHistoryForModel,
      ConversationManager.formatMessagesWithinLimit, toolCollect_eq_indexCollect,
      collectMessages_eq_collectWithinLimit]

/-! ## C5, C6, C10 -/

/-- Claim C5 counterexample to the claim as stated: the monolithic servers'
`generate_response` handler performs only the shape check on its
arguments, so a creation request with the empty prompt `""` raises no
error and registers a `pending` task for it. -/
theorem c5_blank_prompt_counterexample :
    ((DeepseekClaudeServer.handleGenerateResponseInit (fun _ => none) "task-1"
        { prompt := "" } 0).fst) "task-1"
      = some { status := TaskStatus.pending, prompt := "", timestamp := 0 } := by
  simp [DeepseekClaudeServer.handleGenerateResponseInit, TaskManager.Registry.set]

/-- Claim C5 (amended).  `TaskManager.createTask` rejects every blank or
whitespace-only prompt — in particular `""` and `"  "` — with the
validation error `'Prompt cannot be empty'` and registers nothing; the
monolithic servers' inline `generate_response` path performs no such
check (see the counterexample). -/
theorem c5_blank_prompt_validation (prompt : String) (tasks : TaskManager.Registry)
    (taskId : String) (showReasoning : Option Bool) (now : Nat)
    (h : TaskManager.isBlank prompt = true) :
    TaskManager.createTask tasks taskId prompt showReasoning now
        = Except.error "Prompt cannot be empty"
    ∧ TaskManager.createTask tasks taskId "" showReasoning now
        = Except.error "Prompt cannot be empty"
    ∧ TaskManager.createTask tasks taskId "  " showReasoning now
        = Except.error "Prompt cannot be empty" := by
  refine ⟨?_, ?_, ?_⟩
  · simp [TaskManager.createTask, h]
  · simp [TaskManager.createTask, TaskManager.isBlank]
  · have h2 : TaskManager.isBlank "  " = true := by decide
    simp [TaskManager.createTask, h2]

/-- Claim C5 witness: the whitespace-only prompt `"  "` is rejected. -/
theorem c5_blank_prompt_validation_witness :
    TaskManager.createTask (fun _ => none) "t" "  " none 0
      = Except.error "Prompt cannot be empty" :=
  (c5_blank_prompt_validation "  " (fun _ => none) "t" none 0 (by decide)).1

/-- Claim C6.  In the `check_response_status` result, the `reasoning` field
is present only if the task was created with `showReasoning` true (and is
always absent otherwise), and the `response` field is present only when
the status is `complete` (and is always absent otherwise). -/
theorem c6_status_projection_fields (task : TaskInfo) :
    ((DeepseekClaudeServer.checkStatusProjection task).reasoning ≠ none
        → task.showReasoning = some true)
    ∧ (task.showReasoning ≠ some true
        → (DeepseekClaudeServer.checkStatusProjection task).reasoning = none)
    ∧ ((DeepseekClaudeServer.checkStatusProjection task).response ≠ none
        → task.status = TaskStatus.complete)
    ∧ (task.status ≠ TaskStatus.complete
        → (DeepseekClaudeServer.checkStatusProjection task).response = none) := by
  refine ⟨?_, ?_, ?_, ?_⟩
  · intro hr
    by_cases hs : task.showReasoning = some true
    · exact hs
    · exact absurd (by simp [DeepseekClaudeServer.checkStatusProjection, hs]) hr
  · intro hs
    simp [DeepseekClaudeServer.checkStatusProjection, hs]
  · intro hr
    by_cases hs : task.status = TaskStatus.complete
    · exact hs
    · exact absurd (by simp [DeepseekClaudeServer.checkStatusProjection, hs]) hr
  · intro hs
    simp [DeepseekClaudeServer.checkStatusProjection, hs]

/-- Claim C6 witness: a mid-flight task created without `showReasoning`
gets neither field. -/
theorem c6_status_projection_fields_witness :
    (DeepseekClaudeServer.checkStatusProjection
        { status := TaskStatus.reasoning, prompt := "p", showReasoning := some false,
          reasoning := some "r", response := some "a", timestamp := 0 }).reasoning = none
    ∧ (DeepseekClaudeServer.checkStatusProjection
        { status := TaskStatus.reasoning, prompt := "p", showReasoning := some false,
          reasoning := some "r", response := some "a", timestamp := 0 }).response = none :=
  ⟨(c6_status_projection_fields
      { status := TaskStatus.reasoning, prompt := "p", showReasoning := some false,
        reasoning := some "r", response := some "a", timestamp := 0 }).2.1 (by decide),
   (c6_status_projection_fields
      { status := TaskStatus.reasoning, prompt := "p", showReasoning := some false,
        reasoning := some "r", response := some "a", timestamp := 0 }).2.2.2 (by decide)⟩

/-- Claim C10.  The registry enforces no state-machine discipline: for any
stored record (terminal or not), any status value and any partial update,
`updateTask` and `setTaskStatus` succeed unconditionally and store the
merged record. -/
theorem c10_registry_no_guard (tasks : TaskManager.Registry) (taskId : String)
    (task : TaskInfo) (updates : TaskManager.TaskUpdate) (status : TaskStatus)
    (additionalInfo : TaskManager.TaskUpdate) (now : Nat)
    (hid : taskId ≠ "") (hfound : tasks taskId = some task) :
    TaskManager.updateTask tasks taskId updates now
        = Except.ok (tasks.set taskId (TaskManager.applyUpdate task updates now))
    ∧ TaskManager.setTaskStatus tasks taskId status additionalInfo now
        = Except.ok (tasks.set taskId
            { TaskManager.applyUpdate task additionalInfo now with status := status }) := by
  constructor
  · simp [TaskManager.updateTask, TaskManager.validateTaskId, hid, hfound]
  · simp [TaskManager.setTaskStatus, TaskManager.validateTaskId, hid, hfound]

/-- Claim C10 witness: a `complete` (terminal) task is moved back to
`pending` without any error. -/
theorem c10_registry_no_guard_witness :
    TaskManager.setTaskStatus
        (TaskManager.Registry.set (fun _ => none) "t"
          { status := TaskStatus.complete, prompt := "p", timestamp := 0 })
        "t" TaskStatus.pending {} 5
      = Except.ok
          ((TaskManager.Registry.set (fun _ => none) "t"
              { status := TaskStatus.complete, prompt := "p", timestamp := 0 }).set "t"
            { status := TaskStatus.pending, prompt := "p", timestamp := 5 }) :=
  (c10_registry_no_guard
      (TaskManager.Registry.set (fun _ => none) "t"
        { status := TaskStatus.complete, prompt := "p", timestamp := 0 })
      "t" { status := TaskStatus.complete, prompt := "p", timestamp := 0 }
      {} TaskStatus.pending {} 5 (by decide) rfl).2

/-! ## Helper lemmas about the orchestrator stages -/

/-- If the reasoning remote call yields an absent or empty reasoning field
on every prompt, `getDeepseekReasoning` fails with the fixed message. -/
theorem getDeepseekReasoning_empty_is_error (ctx : ConversationContext)
    (dsR : DeepseekClaudeServer.DeepseekRemote) (prompt : String)
    (h : ∀ p, dsR p = Except.ok none ∨ dsR p = Except.ok (some "")) :
    DeepseekClaudeServer.getDeepseekReasoning ctx dsR prompt
      = Except.error (some "No reasoning received from DeepSeek") := by
  rcases h (DeepseekClaudeServer.contextPromptOf ctx prompt) with h1 | h1 <;>
    simp [DeepseekClaudeServer.getDeepseekReasoning, h1]

/-- If the reasoning remote call yields the fixed non-empty reasoning `r`,
`getDeepseekReasoning` succeeds with `r`. -/
theorem getDeepseekReasoning_const_ok (ctx : ConversationContext)
    (dsR : DeepseekClaudeServer.DeepseekRemote) (prompt : String) (r : String)
    (hr : r ≠ "") (h : ∀ p, dsR p = Except.ok (some r)) :
    DeepseekClaudeServer.getDeepseekReasoning ctx dsR prompt = Except.ok r := by
  simp [DeepseekClaudeServer.getDeepseekReasoning,
    h (DeepseekClaudeServer.contextPromptOf ctx prompt), hr]

/-- If the response remote call yields an empty content on every message
list, `getFinalResponse` still succeeds, with the placeholder. -/
theorem getFinalResponse_empty_is_placeholder (ctx : ConversationContext)
    (clR : DeepseekClaudeServer.ClaudeRemote) (prompt reasoning : String)
    (h : ∀ ms, clR ms = Except.ok (some "")) :
    DeepseekClaudeServer.getFinalResponse ctx clR prompt reasoning
      = Except.ok "Error: No response content" := by
  simp [DeepseekClaudeServer.getFinalResponse,
    h (DeepseekClaudeServer.responseMessagesOf ctx prompt reasoning)]

/-- Behaviour of `processTask` when the reasoning stage fails: the write trace is the
`reasoning` transition followed directly by the terminal `error` write
carrying the failure's message, and the context buffer is returned as it
was after the optional clear. -/
theorem processTask_reasoning_error (task : TaskInfo) (cc : Bool) (ihist : Option Bool)
    (history : Option (List ClaudeMessage)) (dsR : DeepseekClaudeServer.DeepseekRemote)
    (clR : DeepseekClaudeServer.ClaudeRemote) (ctx : ConversationContext)
    (t1 t2 t3 : Nat) (e : Thrown)
    (h : DeepseekClaudeServer.getDeepseekReasoning (DeepseekClaudeServer.ctxAfterClear cc ctx)
        dsR (DeepseekClaudeServer.reasoningPromptOf task
          (DeepseekClaudeServer.historyIfRequested ihist history)) = Except.error e) :
    DeepseekClaudeServer.processTask task cc ihist history dsR clR ctx t1 t2 t3
      = ([⟨t1, { task with status := TaskStatus.reasoning }⟩,
          ⟨t3, { task with
                  status := TaskStatus.error
                  error := some (thrownMessage e)
                  timestamp := t3 }⟩],
         DeepseekClaudeServer.ctxAfterClear cc ctx) := by
  simp only [DeepseekClaudeServer.processTask, h]

/-- Behaviour of `processTask` when the reasoning stage succeeds but the response stage
fails: three writes (`reasoning`, `responding`, terminal `error`) and an
unchanged buffer. -/
theorem processTask_response_error (task : TaskInfo) (cc : Bool) (ihist : Option Bool)
    (history : Option (List ClaudeMessage)) (dsR : DeepseekClaudeServer.DeepseekRemote)
    (clR : DeepseekClaudeServer.ClaudeRemote) (ctx : ConversationContext)
    (t1 t2 t3 : Nat) (r : String) (e : Thrown)
    (h1 : DeepseekClaudeServer.getDeepseekReasoning (DeepseekClaudeServer.ctxAfterClear cc ctx)
        dsR (DeepseekClaudeServer.reasoningPromptOf task
          (DeepseekClaudeServer.historyIfRequested ihist history)) = Except.ok r)
    (h2 : DeepseekClaudeServer.getFinalResponse (DeepseekClaudeServer.ctxAfterClear cc ctx)
        clR (DeepseekClaudeServer.fullPromptOf task
          (DeepseekClaudeServer.historyIfRequested ihist history)) r = Except.error e) :
    DeepseekClaudeServer.processTask task cc ihist history dsR clR ctx t1 t2 t3
      = ([⟨t1, { task with status := TaskStatus.reasoning }⟩,
          ⟨t2, { task with status := TaskStatus.responding, reasoning := some r }⟩,
          ⟨t3, { task with
                  status := TaskStatus.error
                  error := some (thrownMessage e)
                  timestamp := t3 }⟩],
         DeepseekClaudeServer.ctxAfterClear cc ctx) := by
  simp only [DeepseekClaudeServer.processTask, h1, h2]

/-- Behaviour of `processTask` when both stages succeed: three writes ending in
`complete`, and exactly one append to the buffer. -/
theorem processTask_success (task : TaskInfo) (cc : Bool) (ihist : Option Bool)
    (history : Option (List ClaudeMessage)) (dsR : DeepseekClaudeServer.DeepseekRemote)
    (clR : DeepseekClaudeServer.ClaudeRemote) (ctx : ConversationContext)
    (t1 t2 t3 : Nat) (r resp : String)
    (h1 : DeepseekClaudeServer.getDeepseekReasoning (DeepseekClaudeServer.ctxAfterClear cc ctx)
        dsR (DeepseekClaudeServer.reasoningPromptOf task
          (DeepseekClaudeServer.historyIfRequested ihist history)) = Except.ok r)
    (h2 : DeepseekClaudeServer.getFinalResponse (DeepseekClaudeServer.ctxAfterClear cc ctx)
        clR (DeepseekClaudeServer.fullPromptOf task
          (DeepseekClaudeServer.historyIfRequested ihist history)) r = Except.ok resp) :
    DeepseekClaudeServer.processTask task cc ihist history dsR clR ctx t1 t2 t3
      = ([⟨t1, { task with status := TaskStatus.reasoning }⟩,
          ⟨t2, { task with status := TaskStatus.responding, reasoning := some r }⟩,
          ⟨t3, { task with
                  status := TaskStatus.complete
                  reasoning := some r
                  response := some resp
                  timestamp := t3 }⟩],
         DeepseekClaudeServer.addToContext (DeepseekClaudeServer.ctxAfterClear cc ctx)
           ⟨t3, task.prompt, r, resp, CLAUDE_MODEL⟩) := by
  simp only [DeepseekClaudeServer.processTask, h1, h2]

/-! ## C3, C4, C7, C8 -/

/-- Claim C3 counterexample to the claim as stated: a reasoning-stage call
that throws an `Error` whose `.message` is the empty string drives the
task from `reasoning` directly to `error`, but the recorded error message
is `""` — empty, not non-empty as claimed. -/
theorem c3_error_message_counterexample :
    ((DeepseekClaudeServer.processTask
        { status := TaskStatus.pending, prompt := "p", timestamp := 0 }
        false none none (fun _ => Except.error (some "")) (fun _ => Except.ok none)
        { entries := [], maxEntries := 10 } 1 2 3).fst.map
          fun w => (w.info.status, w.info.error))
      = [(TaskStatus.reasoning, none), (TaskStatus.error, some "")] := by
  decide

/-- Claim C3 (amended).  On a reasoning-stage failure the task moves from
`reasoning` directly to `error`, the recorded message being the failure's
own message (hence non-empty whenever that message is — in particular the
internally raised `'No reasoning received from DeepSeek'` always is), and
the run performs no append to the context buffer; a response-stage failure
also performs no append; a fully successful run appends exactly one entry
built from the task's prompt, the reasoning and the response. -/
theorem c3_pipeline_buffer_effects (task : TaskInfo) (cc : Bool) (ihist : Option Bool)
    (history : Option (List ClaudeMessage)) (dsR : DeepseekClaudeServer.DeepseekRemote)
    (clR : DeepseekClaudeServer.ClaudeRemote) (ctx : ConversationContext) (t1 t2 t3 : Nat) :
    (∀ e, DeepseekClaudeServer.getDeepseekReasoning
          (DeepseekClaudeServer.ctxAfterClear cc ctx) dsR
          (DeepseekClaudeServer.reasoningPromptOf task
            (DeepseekClaudeServer.historyIfRequested ihist history)) = Except.error e →
        ((DeepseekClaudeServer.processTask task cc ihist history dsR clR ctx t1 t2 t3).fst.map
            fun w => w.info.status) = [TaskStatus.reasoning, TaskStatus.error]
        ∧ ((DeepseekClaudeServer.processTask task cc ihist history dsR clR ctx t1 t2 t3).fst.getLast?).map
            (fun w => w.info.error) = some (some (thrownMessage e))
        ∧ (DeepseekClaudeServer.processTask task cc ihist history dsR clR ctx t1 t2 t3).snd
            = DeepseekClaudeServer.ctxAfterClear cc ctx)
    ∧ (∀ r e, DeepseekClaudeServer.getDeepseekReasoning
          (DeepseekClaudeServer.ctxAfterClear cc ctx) dsR
          (DeepseekClaudeServer.reasoningPromptOf task
            (DeepseekClaudeServer.historyIfRequested ihist history)) = Except.ok r →
        DeepseekClaudeServer.getFinalResponse
          (DeepseekClaudeServer.ctxAfterClear cc ctx) clR
          (DeepseekClaudeServer.fullPromptOf task
            (DeepseekClaudeServer.historyIfRequested ihist history)) r = Except.error e →
        (DeepseekClaudeServer.processTask task cc ihist history dsR clR ctx t1 t2 t3).snd
          = DeepseekClaudeServer.ctxAfterClear cc ctx)
    ∧ (∀ r resp, DeepseekClaudeServer.getDeepseekReasoning
          (DeepseekClaudeServer.ctxAfterClear cc ctx) dsR
          (DeepseekClaudeServer.reasoningPromptOf task
            (DeepseekClaudeServer.historyIfRequested ihist history)) = Except.ok r →
        DeepseekClaudeServer.getFinalResponse
          (DeepseekClaudeServer.ctxAfterClear cc ctx) clR
          (DeepseekClaudeServer.fullPromptOf task
            (DeepseekClaudeServer.historyIfRequested ihist history)) r = Except.ok resp →
        (DeepseekClaudeServer.processTask task cc ihist history dsR clR ctx t1 t2 t3).snd
          = DeepseekClaudeServer.addToContext (DeepseekClaudeServer.ctxAfterClear cc ctx)
              ⟨t3, task.prompt, r, resp, CLAUDE_MODEL⟩) := by
  refine ⟨?_, ?_, ?_⟩
  · intro e he
    rw [processTask_reasoning_error task cc ihist history dsR clR ctx t1 t2 t3 e he]
    simp
  · intro r e h1 h2
    rw [processTask_response_error task cc ihist history dsR clR ctx t1 t2 t3 r e h1 h2]
  · intro r resp h1 h2
    rw [processTask_success task cc ihist history dsR clR ctx t1 t2 t3 r resp h1 h2]

/-- Claim C3 witness: a reasoning-stage failure with message `"boom"` gives
the two-write trace ending in `error`/`"boom"` and leaves the (empty)
buffer untouched. -/
theorem c3_pipeline_buffer_effects_witness :
    ((DeepseekClaudeServer.processTask
        { status := TaskStatus.pending, prompt := "p", timestamp := 0 }
        false none none (fun _ => Except.error (some "boom")) (fun _ => Except.ok none)
        { entries := [], maxEntries := 10 } 1 2 3).fst.map
          fun w => w.info.status) = [TaskStatus.reasoning, TaskStatus.error]
    ∧ (DeepseekClaudeServer.processTask
        { status := TaskStatus.pending, prompt := "p", timestamp := 0 }
        false none none (fun _ => Except.error (some "boom")) (fun _ => Except.ok none)
        { entries := [], maxEntries := 10 } 1 2 3).snd
      = DeepseekClaudeServer.ctxAfterClear false { entries := [], maxEntries := 10 } :=
  ⟨((c3_pipeline_buffer_effects
      { status := TaskStatus.pending, prompt := "p", timestamp := 0 }
      false none none (fun _ => Except.error (some "boom")) (fun _ => Except.ok none)
      { entries := [], maxEntries := 10 } 1 2 3).1 (some "boom") rfl).1,
   ((c3_pipeline_buffer_effects
      { status := TaskStatus.pending, prompt := "p", timestamp := 0 }
      false none none (fun _ => Except.error (some "boom")) (fun _ => Except.ok none)
      { entries := [], maxEntries := 10 } 1 2 3).1 (some "boom") rfl).2.2⟩

/-- Claim C4 counterexample to the claim as stated: the monolithic
orchestrator's very first mutation (the `pending → reasoning` write,
performed here at wall time 5) spreads the original record without
refreshing the timestamp, so the record still carries the creation
timestamp 0, not the time of the mutation. -/
theorem c4_timestamp_counterexample :
    (((DeepseekClaudeServer.processTask
        { status := TaskStatus.pending, prompt := "p", timestamp := 0 }
        false none none (fun _ => Except.error (some "boom")) (fun _ => Except.ok none)
        { entries := [], maxEntries := 10 } 5 6 7).fst.head?).map
          fun w => (w.time, w.info.timestamp))
      = some (5, 0) := by
  decide

/-- Claim C4 (amended).  The registry operations `updateTask` and
`setTaskStatus` refresh the timestamp on every call; in the monolithic
orchestrator, however, only the terminal (`complete`/`error`) write
records its own wall time — the intermediate `reasoning` and `responding`
writes keep the record's previous timestamp. -/
theorem c4_timestamp_semantics (tasks : TaskManager.Registry) (taskId : String)
    (task : TaskInfo) (updates : TaskManager.TaskUpdate) (status : TaskStatus)
    (info : TaskManager.TaskUpdate) (now : Nat)
    (hid : taskId ≠ "") (hfound : tasks taskId = some task) :
    (∃ m, TaskManager.updateTask tasks taskId updates now = Except.ok m
        ∧ (m taskId).map TaskInfo.timestamp = some now)
    ∧ (∃ m, TaskManager.setTaskStatus tasks taskId status info now = Except.ok m
        ∧ (m taskId).map TaskInfo.timestamp = some now)
    ∧ (∀ (cc : Bool) (ihist : Option Bool) (history : Option (List ClaudeMessage))
          (dsR : DeepseekClaudeServer.DeepseekRemote)
          (clR : DeepseekClaudeServer.ClaudeRemote)
          (ctx : ConversationContext) (t1 t2 t3 : Nat)
          (w : DeepseekClaudeServer.TaskWrite),
        w ∈ (DeepseekClaudeServer.processTask task cc ihist history dsR clR ctx t1 t2 t3).fst →
        w.info.timestamp
          = if TaskManager.isTaskComplete w.info.status then w.time else task.timestamp) := by
  refine ⟨?_, ?_, ?_⟩
  · refine ⟨tasks.set taskId (TaskManager.applyUpdate task updates now), ?_, ?_⟩
    · simp [TaskManager.updateTask, TaskManager.validateTaskId, hid, hfound]
    · simp [TaskManager.Registry.set, TaskManager.applyUpdate]
  · refine ⟨tasks.set taskId
      { TaskManager.applyUpdate task info now with status := status }, ?_, ?_⟩
    · simp [TaskManager.setTaskStatus, TaskManager.validateTaskId, hid, hfound]
    · simp [TaskManager.Registry.set, TaskManager.applyUpdate]
  · intro cc ihist history dsR clR ctx t1 t2 t3 w hw
    cases hds : DeepseekClaudeServer.getDeepseekReasoning
        (DeepseekClaudeServer.ctxAfterClear cc ctx) dsR
        (DeepseekClaudeServer.reasoningPromptOf task
          (DeepseekClaudeServer.historyIfRequested ihist history)) with
    | error e =>
      rw [processTask_reasoning_error task cc ihist history dsR clR ctx t1 t2 t3 e hds] at hw
      simp at hw
      rcases hw with h | h <;> subst h <;> simp [TaskManager.isTaskComplete]
    | ok r =>
      cases hfr : DeepseekClaudeServer.getFinalResponse
          (DeepseekClaudeServer.ctxAfterClear cc ctx) clR
          (DeepseekClaudeServer.fullPromptOf task
            (DeepseekClaudeServer.historyIfRequested ihist history)) r with
      | error e =>
        rw [processTask_response_error task cc ihist history dsR clR ctx t1 t2 t3 r e hds hfr]
          at hw
        simp at hw
        rcases hw with h | h | h <;> subst h <;> simp [TaskManager.isTaskComplete]
      | ok resp =>
        rw [processTask_success task cc ihist history dsR clR ctx t1 t2 t3 r resp hds hfr]
          at hw
        simp at hw
        rcases hw with h | h | h <;> subst h <;> simp [TaskManager.isTaskComplete]

/-- Claim C4 witness: a registry update at time 9 stores timestamp 9. -/
theorem c4_timestamp_semantics_witness :
    ∃ m, TaskManager.updateTask
        (TaskManager.Registry.set (fun _ => none) "t"
          { status := TaskStatus.pending, prompt := "p", timestamp := 0 })
        "t" {} 9 = Except.ok m
      ∧ (m "t").map TaskInfo.timestamp = some 9 :=
  (c4_timestamp_semantics
      (TaskManager.Registry.set (fun _ => none) "t"
        { status := TaskStatus.pending, prompt := "p", timestamp := 0 })
      "t" { status := TaskStatus.pending, prompt := "p", timestamp := 0 }
      {} TaskStatus.pending {} 9 (by decide) rfl).1

/-- Claim C7.  A task whose registry entry is terminal (`complete` or
`error`) is answered immediately by `waitForTaskUpdate` — zero polling
ticks — with the stored snapshot, for any valid timeout and any later
evolution of the registry; two such calls therefore return the same
terminal snapshot (all fields identical).  The declarative-tool server's
`check_response_status` handler likewise short-circuits, answering with
the projection of the same snapshot. -/
theorem c7_terminal_wait_idempotent (s1 s2 : Nat → Option TaskInfo) (taskId : String)
    (t : TaskInfo) (timeout1 timeout2 : Nat) (hid : taskId ≠ "")
    (h1 : 0 < timeout1) (h2 : 0 < timeout2)
    (hs1 : s1 0 = some t) (hs2 : s2 0 = some t)
    (hterm : TaskManager.isTaskComplete t.status = true) :
    TaskManager.waitForTaskUpdate s1 taskId timeout1 = Except.ok ⟨t, 0⟩
    ∧ TaskManager.waitForTaskUpdate s2 taskId timeout2 = Except.ok ⟨t, 0⟩
    ∧ DeepseekClaudeServer.handleCheckResponseStatus s1 taskId
        = Except.ok (DeepseekClaudeServer.checkStatusProjection t, 0) := by
  have hto1 : ¬ timeout1 ≤ 0 := by omega
  have hto2 : ¬ timeout2 ≤ 0 := by omega
  refine ⟨?_, ?_, ?_⟩
  · simp [TaskManager.waitForTaskUpdate, TaskManager.validateTaskId,
      TaskManager.validateTimeout, hid, hto1, hs1, hterm]
  · simp [TaskManager.waitForTaskUpdate, TaskManager.validateTaskId,
      TaskManager.validateTimeout, hid, hto2, hs2, hterm]
  · simp [DeepseekClaudeServer.handleCheckResponseStatus, hs1, hterm]

/-- Claim C7 witness: a completed task is returned unchanged, without
polling, by two calls with different timeouts, and by the status-check
handler. -/
theorem c7_terminal_wait_idempotent_witness :
    TaskManager.waitForTaskUpdate
        (fun _ => some { status := TaskStatus.complete, prompt := "p", reasoning := some "r", response := some "a", timestamp := 3 }) "t" 10000
      = Except.ok ⟨{ status := TaskStatus.complete, prompt := "p", reasoning := some "r", response := some "a", timestamp := 3 }, 0⟩
    ∧ TaskManager.waitForTaskUpdate
        (fun _ => some { status := TaskStatus.complete, prompt := "p", reasoning := some "r", response := some "a", timestamp := 3 }) "t" 200
      = Except.ok ⟨{ status := TaskStatus.complete, prompt := "p", reasoning := some "r", response := some "a", timestamp := 3 }, 0⟩
    ∧ DeepseekClaudeServer.handleCheckResponseStatus
        (fun _ => some { status := TaskStatus.complete, prompt := "p", reasoning := some "r", response := some "a", timestamp := 3 }) "t"
      = Except.ok (DeepseekClaudeServer.checkStatusProjection
          { status := TaskStatus.complete, prompt := "p", reasoning := some "r", response := some "a", timestamp := 3 }, 0) :=
  c7_terminal_wait_idempotent
    (fun _ => some { status := TaskStatus.complete, prompt := "p", reasoning := some "r", response := some "a", timestamp := 3 })
    (fun _ => some { status := TaskStatus.complete, prompt := "p", reasoning := some "r", response := some "a", timestamp := 3 })
    "t" { status := TaskStatus.complete, prompt := "p", reasoning := some "r", response := some "a", timestamp := 3 }
    10000 200 (by decide) (by omega) (by omega) rfl rfl (by decide)

/-- Claim C8.  Empty remote results are handled asymmetrically: a
reasoning-stage completion with an absent or empty reasoning field fails
the task (terminal `error` with the fixed message), while a
response-stage completion with empty content still completes the task,
substituting the placeholder `"Error: No response content"` for the
response. -/
theorem c8_empty_result_asymmetry (task : TaskInfo) (cc : Bool) (ihist : Option Bool)
    (history : Option (List ClaudeMessage)) (dsR : DeepseekClaudeServer.DeepseekRemote)
    (clR : DeepseekClaudeServer.ClaudeRemote) (ctx : ConversationContext) (t1 t2 t3 : Nat) :
    ((∀ p, dsR p = Except.ok none ∨ dsR p = Except.ok (some "")) →
      (DeepseekClaudeServer.processTask task cc ihist history dsR clR ctx t1 t2 t3).fst
        = [⟨t1, { task with status := TaskStatus.reasoning }⟩,
           ⟨t3, { task with
                   status := TaskStatus.error
                   error := some "No reasoning received from DeepSeek"
                   timestamp := t3 }⟩])
    ∧ (∀ r, r ≠ "" → (∀ p, dsR p = Except.ok (some r)) →
        (∀ ms, clR ms = Except.ok (some "")) →
        (DeepseekClaudeServer.processTask task cc ihist history dsR clR ctx t1 t2 t3).fst
          = [⟨t1, { task with status := TaskStatus.reasoning }⟩,
             ⟨t2, { task with status := TaskStatus.responding, reasoning := some r }⟩,
             ⟨t3, { task with
                     status := TaskStatus.complete
                     reasoning := some r
                     response := some "Error: No response content"
                     timestamp := t3 }⟩]) := by
  constructor
  · intro h
    rw [processTask_reasoning_error task cc ihist history dsR clR ctx t1 t2 t3
      (some "No reasoning received from DeepSeek")
      (getDeepseekReasoning_empty_is_error (DeepseekClaudeServer.ctxAfterClear cc ctx) dsR
        (DeepseekClaudeServer.reasoningPromptOf task
          (DeepseekClaudeServer.historyIfRequested ihist history)) h)]
    simp [thrownMessage]
  · intro r hr hds hcl
    rw [processTask_success task cc ihist history dsR clR ctx t1 t2 t3 r
      "Error: No response content"
      (getDeepseekReasoning_const_ok (DeepseekClaudeServer.ctxAfterClear cc ctx) dsR
        (DeepseekClaudeServer.reasoningPromptOf task
          (DeepseekClaudeServer.historyIfRequested ihist history)) r hr hds)
      (getFinalResponse_empty_is_placeholder (DeepseekClaudeServer.ctxAfterClear cc ctx) clR
        (DeepseekClaudeServer.fullPromptOf task
          (DeepseekClaudeServer.historyIfRequested ihist history)) r hcl)]

/-- Claim C8 witness: an empty reasoning field fails the task; an empty
response content completes it with the placeholder. -/
theorem c8_empty_result_asymmetry_witness :
    (DeepseekClaudeServer.processTask
        { status := TaskStatus.pending, prompt := "p", timestamp := 0 }
        false none none (fun _ => Except.ok (some "")) (fun _ => Except.ok (some "ok"))
        { entries := [], maxEntries := 10 } 1 2 3).fst
      = [⟨1, { status := TaskStatus.reasoning, prompt := "p", timestamp := 0 }⟩,
         ⟨3, { status := TaskStatus.error, prompt := "p",
               error := some "No reasoning received from DeepSeek", timestamp := 3 }⟩]
    ∧ (DeepseekClaudeServer.processTask
        { status := TaskStatus.pending, prompt := "p", timestamp := 0 }
        false none none (fun _ => Except.ok (some "deep reasoning"))
        (fun _ => Except.ok (some ""))
        { entries := [], maxEntries := 10 } 1 2 3).fst
      = [⟨1, { status := TaskStatus.reasoning, prompt := "p", timestamp := 0 }⟩,
         ⟨2, { status := TaskStatus.responding, prompt := "p",
               reasoning := some "deep reasoning", timestamp := 0 }⟩,
         ⟨3, { status := TaskStatus.complete, prompt := "p",
               reasoning := some "deep reasoning",
               response := some "Error: No response content", timestamp := 3 }⟩] :=
  ⟨(c8_empty_result_asymmetry
      { status := TaskStatus.pending, prompt := "p", timestamp := 0 }
      false none none (fun _ => Except.ok (some "")) (fun _ => Except.ok (some "ok"))
      { entries := [], maxEntries := 10 } 1 2 3).1 (fun _ => Or.inr rfl),
   (c8_empty_result_asymmetry
      { status := TaskStatus.pending, prompt := "p", timestamp := 0 }
      false none none (fun _ => Except.ok (some "deep reasoning"))
      (fun _ => Except.ok (some ""))
      { entries := [], maxEntries := 10 } 1 2 3).2 "deep reasoning" (by decide)
      (fun _ => rfl) (fun _ => rfl)⟩
